import Mathlib

/-!
Verification of pybind11's interpreter-embedding layer (include/pybind11/embed.h).

The C++ functions are shallowly embedded as executable Lean functions.
Compile-time version conditionals (PY_MAJOR_VERSION, availability of
PySys_SetArgvEx) become boolean configuration parameters; calls into the
CPython runtime (Py_InitializeEx, PySys_SetArgv, PySys_SetArgvEx, Py_Finalize,
the sys.path pop) are recorded as events in a trace; the locale decoding
routine (Py_DecodeLocale / mbstowcs in widen_chars) is an oracle parameter
that may fail, returning the null sentinel, modelled as Option.
-/

namespace Embed

/-- Modelled from the spec: pybind11_fail (defined in pybind11.h, not under
src/) raises a catchable failure; the spec's error taxonomy distinguishes
IllegalState (operation in wrong lifecycle phase) and ResourceExhausted
(table append failed under memory pressure). Each carries the message the
source passes to pybind11_fail. -/
inductive PyError
  | illegalState (msg : String)
  | resourceExhausted (msg : String)
  deriving DecidableEq, Repr

/-- Events recording the CPython primitives invoked by initialize_interpreter
and set_interpreter_argv, in order. The popPathFirst event models the
module:: import chain sys.path.pop() from embed.h line 161. -/
inductive RtEvent
  | initializeEx (installSignalHandlers : Bool)
  | setArgv (args : List String)
  | setArgvEx (args : List String) (addDir : Bool)
  | popPathFirst
  deriving DecidableEq, Repr

/-- Version configuration: the two preprocessor conditions of embed.h that
affect set_interpreter_argv. pyMajorGe3 is PY_MAJOR_VERSION >= 3;
hasSetArgvEx is the negation of the condition on line 155 (very old runtimes
lack PySys_SetArgvEx). -/
structure VersionCfg where
  pyMajorGe3 : Bool
  hasSetArgvEx : Bool
  deriving DecidableEq, Repr

/-- The special-case block of set_interpreter_argv (embed.h lines 125-133):
if argv is null or argc <= 0, substitute a one-element array holding the
empty string and argc = 1; otherwise keep the caller's argc entries.
The returned pair is (safe_argv contents, argc). -/
def safe_args (argc : Int) (argv : Option (List String)) : List String × Int :=
  if argv = none ∨ argc ≤ 0 then ([""], 1)
  else ((argv.getD []).take argc.toNat, argc)

/-- The widening loop of set_interpreter_argv (embed.h lines 139-147):
widen each argument in order; a null result from widen_chars aborts the
whole conversion (the C++ function returns early). -/
def widen_all (widen : String → Option String) : List String → Option (List String)
  | [] => some []
  | a :: rest =>
    match widen a with
    | none => none
    | some w =>
      match widen_all widen rest with
      | none => none
      | some ws => some (w :: ws)

/-- The final dispatch of set_interpreter_argv (embed.h lines 155-164):
with PySys_SetArgvEx available, one combined call carrying the
add_current_dir_to_path flag; without it, plain PySys_SetArgv followed by a
sys.path pop exactly when the current directory must not be added. -/
def dispatch_argv (hasEx : Bool) (args : List String) (addDir : Bool) : List RtEvent :=
  if hasEx then [RtEvent.setArgvEx args addDir]
  else RtEvent.setArgv args :: (if addDir then [] else [RtEvent.popPathFirst])

/-- set_interpreter_argv (embed.h lines 122-165), returning the trace of
runtime primitives it invokes. On Python 3 the arguments are widened first
and any widening failure silently produces the empty trace (no primitive is
invoked); on Python 2 the safe argv is passed through unchanged. -/
def set_interpreter_argv (cfg : VersionCfg) (widen : String → Option String)
    (argc : Int) (argv : Option (List String)) (addDir : Bool) : List RtEvent :=
  let s := safe_args argc argv
  if cfg.pyMajorGe3 then
    (widen_all widen s.1).elim [] (fun wargs => dispatch_argv cfg.hasSetArgvEx wargs addDir)
  else
    dispatch_argv cfg.hasSetArgvEx s.1 addDir

/-- The argument vector handed to the set-argv primitive by a trace, if any
set-argv call occurs in it. -/
def sentArgs : List RtEvent → Option (List String)
  | [] => none
  | RtEvent.setArgv args :: _ => some args
  | RtEvent.setArgvEx args _ :: _ => some args
  | _ :: rest => sentArgs rest

/-- Result of initialize_interpreter: the raised error if any, the resulting
interpreter state (true = Running), and the trace of runtime primitives. -/
structure InitResult where
  error : Option PyError
  running : Bool
  events : List RtEvent
  deriving DecidableEq, Repr

/-- initialize_interpreter (embed.h lines 188-198): fail when the interpreter
is already initialized, otherwise call Py_InitializeEx and then delegate to
set_interpreter_argv. The initialized argument models Py_IsInitialized(). -/
def initialize_interpreter (cfg : VersionCfg) (widen : String → Option String)
    (initialized : Bool) (initSignalHandlers : Bool) (argc : Int)
    (argv : Option (List String)) (addDir : Bool) : InitResult :=
  if initialized then
    ⟨some (PyError.illegalState "The interpreter is already running"), initialized, []⟩
  else
    ⟨none, true,
      RtEvent.initializeEx initSignalHandlers :: set_interpreter_argv cfg widen argc argv addDir⟩

end Embed

namespace Embed

/-- C2: calling initialize_interpreter while the runtime is already
initialized fails with the IllegalState error "The interpreter is already
running" and invokes no runtime primitive at all (in particular not
Py_InitializeEx); a successful start from the uninitialized state yields the
Running state with no error, so every subsequent start without an
intervening stop hits the failing case. -/
theorem initialize_twice_fails (cfg : VersionCfg) (widen : String → Option String)
    (sig : Bool) (argc : Int) (argv : Option (List String)) (addDir : Bool) :
    initialize_interpreter cfg widen true sig argc argv addDir
      = ⟨some (PyError.illegalState "The interpreter is already running"), true, []⟩
    ∧ (initialize_interpreter cfg widen false sig argc argv addDir).error = none
    ∧ (initialize_interpreter cfg widen false sig argc argv addDir).running = true := by
  refine ⟨rfl, ?_, ?_⟩ <;> simp [initialize_interpreter]

/-- When the null-or-empty special case fires, safe_args yields the
one-element empty-string vector with count 1. -/
theorem safe_args_degenerate (argc : Int) (argv : Option (List String))
    (h : argc ≤ 0 ∨ argv = none) : safe_args argc argv = ([""], 1) := by
  unfold safe_args
  rw [if_pos (Or.symm h)]

/-- C3: whenever set_interpreter_argv is given argc ≤ 0 or a null argv, and
decoding the empty string succeeds (as Py_DecodeLocale does on the empty
string), the vector handed to the set-argv primitive has length exactly 1
and its single element is the empty string; in particular a set-argv call
does occur, so no null or zero-length vector reaches the runtime. -/
theorem argv_empty_synthesized (cfg : VersionCfg) (widen : String → Option String)
    (argc : Int) (argv : Option (List String)) (addDir : Bool)
    (h : argc ≤ 0 ∨ argv = none) (hw : widen "" = some "") :
    sentArgs (set_interpreter_argv cfg widen argc argv addDir) = some [""] := by
  unfold set_interpreter_argv
  rw [safe_args_degenerate argc argv h]
  rcases cfg with ⟨p3, hasEx⟩
  cases p3 <;> cases hasEx <;> cases addDir <;>
    simp [widen_all, hw, dispatch_argv, sentArgs]

/-- Closed instance of argv_empty_synthesized: argc = 0 with a null argv and
the identity decoder sends exactly the one-element empty-string vector. -/
theorem argv_empty_synthesized_witness :
    ((0 : Int) ≤ 0 ∨ (none : Option (List String)) = none)
    ∧ (fun s => some s) "" = some ""
    ∧ sentArgs (set_interpreter_argv ⟨true, true⟩ (fun s => some s) 0 none true)
        = some [""] :=
  ⟨Or.inl (by decide), rfl,
    argv_empty_synthesized ⟨true, true⟩ (fun s => some s) 0 none true
      (Or.inl (by decide)) rfl⟩

/-- A single failing entry makes the whole widening loop fail. -/
theorem widen_all_of_mem_fail (widen : String → Option String) (l : List String)
    (a : String) (ha : a ∈ l) (hfail : widen a = none) :
    widen_all widen l = none := by
  induction l with
  | nil => cases ha
  | cons x xs ih =>
    rcases List.mem_cons.mp ha with rfl | hxs
    · simp [widen_all, hfail]
    · unfold widen_all
      rcases hx : widen x with _ | w
      · rfl
      · rw [ih hxs]

/-- C4: on Python 3, if any single argument in the safe argv fails to widen,
initialize_interpreter from the uninitialized state still completes with no
error and reaches the Running state, and the only runtime primitive invoked
is Py_InitializeEx: no set-argv call is made, so the runtime's program
arguments stay unset, and nothing is raised. -/
theorem encode_failure_silent (cfg : VersionCfg) (widen : String → Option String)
    (sig : Bool) (argc : Int) (argv : Option (List String)) (addDir : Bool)
    (a : String) (h3 : cfg.pyMajorGe3 = true)
    (ha : a ∈ (safe_args argc argv).1) (hfail : widen a = none) :
    initialize_interpreter cfg widen false sig argc argv addDir
      = ⟨none, true, [RtEvent.initializeEx sig]⟩ := by
  unfold initialize_interpreter set_interpreter_argv
  rw [if_neg (by simp), h3]
  simp [widen_all_of_mem_fail widen _ a ha hfail]

/-- Closed instance of encode_failure_silent: argument 2 of 3 is
unconvertible while 1 and 3 widen fine; start still reaches Running with
only Py_InitializeEx invoked. -/
theorem encode_failure_silent_witness :
    (⟨true, true⟩ : VersionCfg).pyMajorGe3 = true
    ∧ "b" ∈ (safe_args 3 (some ["a", "b", "c"])).1
    ∧ (fun s => if s = "b" then none else some s) "b" = none
    ∧ initialize_interpreter ⟨true, true⟩ (fun s => if s = "b" then none else some s)
        false true 3 (some ["a", "b", "c"]) true
      = ⟨none, true, [RtEvent.initializeEx true]⟩ :=
  ⟨rfl, by decide, by decide,
    encode_failure_silent ⟨true, true⟩ (fun s => if s = "b" then none else some s)
      true 3 (some ["a", "b", "c"]) true "b" rfl (by decide) (by decide)⟩

/-- The dispatch stage always performs exactly one set-argv call, carrying
the argument vector it was given. -/
theorem sentArgs_dispatch (hasEx : Bool) (args : List String) (addDir : Bool) :
    sentArgs (dispatch_argv hasEx args addDir) = some args := by
  cases hasEx <;> simp [dispatch_argv, sentArgs]

/-- C8: whenever set_interpreter_argv reaches the point of handing a vector
args to the runtime, then on versions lacking PySys_SetArgvEx the trace is
exactly a plain PySys_SetArgv call followed by a pop of the first sys.path
entry if and only if the current directory should not be added to the path,
and on versions having PySys_SetArgvEx the trace is exactly one combined
call carrying the add_current_dir_to_path flag. -/
theorem argv_dispatch_by_version (cfg : VersionCfg) (widen : String → Option String)
    (argc : Int) (argv : Option (List String)) (addDir : Bool) (args : List String)
    (h : sentArgs (set_interpreter_argv cfg widen argc argv addDir) = some args) :
    (cfg.hasSetArgvEx = false →
      set_interpreter_argv cfg widen argc argv addDir
        = RtEvent.setArgv args :: (if addDir then [] else [RtEvent.popPathFirst]))
    ∧ (cfg.hasSetArgvEx = true →
      set_interpreter_argv cfg widen argc argv addDir
        = [RtEvent.setArgvEx args addDir]) := by
  rcases cfg with ⟨p3, hasEx⟩
  unfold set_interpreter_argv at h ⊢
  cases p3 with
  | false =>
    simp only [Bool.false_eq_true, if_false] at h ⊢
    rw [sentArgs_dispatch] at h
    cases h
    cases hasEx <;> simp [dispatch_argv]
  | true =>
    simp only [if_true] at h ⊢
    rcases hw : widen_all widen (safe_args argc argv).1 with _ | wargs
    · rw [hw] at h
      simp [sentArgs] at h
    · rw [hw] at h
      simp only [Option.elim_some, sentArgs_dispatch, Option.some.injEq] at h
      subst h
      cases hasEx <;> simp [dispatch_argv]

/-- Closed instance of argv_dispatch_by_version: on a runtime without
PySys_SetArgvEx and with add_current_dir_to_path = false, the trace is the
plain call followed by the sys.path pop. -/
theorem argv_dispatch_by_version_witness :
    sentArgs (set_interpreter_argv ⟨true, false⟩ (fun s => some s) 1 (some ["x"]) false)
      = some ["x"]
    ∧ set_interpreter_argv ⟨true, false⟩ (fun s => some s) 1 (some ["x"]) false
      = [RtEvent.setArgv ["x"], RtEvent.popPathFirst] :=
  ⟨by decide,
    by
      have h := (argv_dispatch_by_version ⟨true, false⟩ (fun s => some s) 1
        (some ["x"]) false ["x"] (by decide)).1 rfl
      simpa using h⟩

/-! ## finalize_interpreter (embed.h lines 235-253) -/

/-- Events recording what finalize_interpreter does, in order: capture the
builtins namespace, fetch the internals pointer-to-pointer, run Py_Finalize,
delete the internals object the selected cell points to (the argument is the
cell's contents as read after Py_Finalize; deleting a null pointer is a
no-op), and null out the selected cell. -/
inductive FinEvent
  | capture_builtins
  | lookup_internals_pp
  | py_finalize
  | delete_internals (obj : Option Nat)
  | null_cell (cell : Nat)
  deriving DecidableEq, Repr

/-- Modelled from the spec: the builtins namespace as finalize_interpreter
inspects it through handle.contains, isinstance of capsule and the capsule
conversion (all defined in pytypes.h, not under src/): whether it contains
an entry under PYBIND11_INTERNALS_ID, whether that entry is a capsule, and
the internals pointer-to-pointer the capsule wraps (none models a capsule
holding a null pointer). Cell addresses are modelled as Nat. -/
structure BuiltinsNS where
  contains_id : Bool
  id_is_capsule : Bool
  capsule_value : Option Nat
  deriving DecidableEq, Repr

/-- Modelled from the spec: detail.get_internals_pp (defined in
pybind11/detail/internals.h, not under src/) fetches the process-wide
internals pointer-to-pointer cell without creating an internals object as a
side effect; modelled as a pure read of the static cell, which is null when
no internals object was ever created. -/
def get_internals_pp (static_pp : Option Nat) : Option Nat := static_pp

/-- The cell-selection logic of finalize_interpreter (embed.h lines 242-245):
start from get_internals_pp; if builtins contains a capsule under the
internals id, that capsule replaces the cell. -/
def selected_cell (builtins : BuiltinsNS) (static_pp : Option Nat) : Option Nat :=
  if builtins.contains_id && builtins.id_is_capsule then builtins.capsule_value
  else get_internals_pp static_pp

/-- finalize_interpreter (embed.h lines 235-253): capture builtins, select
the internals cell, run Py_Finalize, and only then, if the selected cell
pointer is non-null, delete the internals object it points to and null the
cell. Because the cell's contents may be mutated by Py_Finalize itself, the
model's cells map gives each cell's contents as they stand when read after
Py_Finalize; the function returns the event trace and the final cells map. -/
def finalize_interpreter (builtins : BuiltinsNS) (static_pp : Option Nat)
    (cells : Nat → Option Nat) : List FinEvent × (Nat → Option Nat) :=
  match selected_cell builtins static_pp with
  | none =>
    ([FinEvent.capture_builtins, FinEvent.lookup_internals_pp, FinEvent.py_finalize], cells)
  | some c =>
    ([FinEvent.capture_builtins, FinEvent.lookup_internals_pp, FinEvent.py_finalize,
      FinEvent.delete_internals (cells c), FinEvent.null_cell c],
     Function.update cells c none)

/-- C1: finalize_interpreter first captures builtins and fetches the
internals pointer-to-pointer (a capsule stashed in builtins under the
internals id takes precedence as the selected cell), then runs Py_Finalize,
and no free happens before Py_Finalize: the trace always starts with the
capture, the lookup, and Py_Finalize, in that order, with every
delete_internals strictly after. When the selected cell is non-null the
object freed is the cell's contents as read after Py_Finalize, the cell is
nulled afterwards, and on completion the selected cell's contents are null. -/
theorem finalize_order_capsule_and_null (b : BuiltinsNS) (s : Option Nat)
    (cells : Nat → Option Nat) :
    (b.contains_id = true → b.id_is_capsule = true → selected_cell b s = b.capsule_value)
    ∧ (∃ post, (finalize_interpreter b s cells).1
        = FinEvent.capture_builtins :: FinEvent.lookup_internals_pp
            :: FinEvent.py_finalize :: post)
    ∧ (∀ c, selected_cell b s = some c →
        (finalize_interpreter b s cells).1
          = [FinEvent.capture_builtins, FinEvent.lookup_internals_pp,
             FinEvent.py_finalize, FinEvent.delete_internals (cells c),
             FinEvent.null_cell c]
        ∧ (finalize_interpreter b s cells).2 c = none) := by
  refine ⟨fun h1 h2 => ?_, ?_, fun c hc => ?_⟩
  · simp [selected_cell, h1, h2]
  · rcases hsel : selected_cell b s with _ | c
    · exact ⟨[], by simp [finalize_interpreter, hsel]⟩
    · exact ⟨[FinEvent.delete_internals (cells c), FinEvent.null_cell c],
        by simp [finalize_interpreter, hsel]⟩
  · simp [finalize_interpreter, hc, Function.update]

/-- Closed instance of finalize_order_capsule_and_null: with a capsule in
builtins wrapping cell 5 and the static pointer at cell 7, the capsule wins,
the trace frees after Py_Finalize using the post-finalize contents of cell 5,
and cell 5 ends up null. -/
theorem finalize_order_capsule_and_null_witness :
    selected_cell ⟨true, true, some 5⟩ (some 7) = some 5
    ∧ (finalize_interpreter ⟨true, true, some 5⟩ (some 7) (fun _ => some 9)).1
      = [FinEvent.capture_builtins, FinEvent.lookup_internals_pp,
         FinEvent.py_finalize, FinEvent.delete_internals (some 9),
         FinEvent.null_cell 5]
    ∧ (finalize_interpreter ⟨true, true, some 5⟩ (some 7) (fun _ => some 9)).2 5 = none :=
  ⟨rfl,
    ((finalize_order_capsule_and_null ⟨true, true, some 5⟩ (some 7)
      (fun _ => some 9)).2.2 5 rfl).1,
    ((finalize_order_capsule_and_null ⟨true, true, some 5⟩ (some 7)
      (fun _ => some 9)).2.2 5 rfl).2⟩

/-- C10: when the selected internals cell pointer is null after Py_Finalize
returns, finalize_interpreter skips the free-and-null step entirely: the
trace contains no delete_internals and no null_cell event, every cell's
contents are left untouched, and the function still completes normally. -/
theorem finalize_skips_free_when_null (b : BuiltinsNS) (s : Option Nat)
    (cells : Nat → Option Nat) (h : selected_cell b s = none) :
    finalize_interpreter b s cells
      = ([FinEvent.capture_builtins, FinEvent.lookup_internals_pp,
          FinEvent.py_finalize], cells) := by
  simp [finalize_interpreter, h]

/-- Closed instance of finalize_skips_free_when_null: no capsule stashed and
a null static pointer-to-pointer; the trace is just capture, lookup,
Py_Finalize, and the cells map is unchanged. -/
theorem finalize_skips_free_when_null_witness :
    selected_cell ⟨false, false, none⟩ none = none
    ∧ finalize_interpreter ⟨false, false, none⟩ none (fun _ => none)
      = ([FinEvent.capture_builtins, FinEvent.lookup_internals_pp,
          FinEvent.py_finalize], fun _ => none) :=
  ⟨rfl, finalize_skips_free_when_null ⟨false, false, none⟩ none (fun _ => none) rfl⟩

/-! ## embedded_module (embed.h lines 76-90) -/

/-- Result of constructing a detail.embedded_module: the raised error if
any, the built-in-module table afterwards (entries are name paired with an
opaque initializer id), and the interpreter state, which registration never
changes. -/
structure RegisterResult where
  error : Option PyError
  table : List (String × Nat)
  initialized : Bool
  deriving DecidableEq, Repr

/-- The embedded_module constructor (embed.h lines 82-89): fail when the
interpreter is already initialized; otherwise append (name, init) to the
built-in-module table via PyImport_AppendInittab, failing when that
primitive reports -1 (appendOk models its success; on failure the table is
unchanged). -/
def embedded_module (initialized : Bool) (appendOk : Bool)
    (table : List (String × Nat)) (name : String) (init : Nat) : RegisterResult :=
  if initialized then
    ⟨some (PyError.illegalState
        "Can't add new modules after the interpreter has been initialized"),
      table, initialized⟩
  else if appendOk then ⟨none, table ++ [(name, init)], initialized⟩
  else ⟨some (PyError.resourceExhausted "Insufficient memory to add a new module"),
        table, initialized⟩

/-- Whether an error value is an IllegalState failure. -/
def isIllegalState : Option PyError → Bool
  | some (PyError.illegalState _) => true
  | _ => false

/-- Whether an error value is a ResourceExhausted failure. -/
def isResourceExhausted : Option PyError → Bool
  | some (PyError.resourceExhausted _) => true
  | _ => false

/-- C5: embedded_module construction fails with an IllegalState error
exactly when the runtime is currently initialized; it fails with a
ResourceExhausted error exactly when the runtime is not initialized and the
table-append primitive reports failure; when neither holds, it succeeds and
appends the initializer to the built-in-module table; and in every case the
interpreter state is unchanged, so no runtime object is created. -/
theorem register_preconditions (initialized appendOk : Bool)
    (table : List (String × Nat)) (name : String) (init : Nat) :
    (isIllegalState (embedded_module initialized appendOk table name init).error = true
      ↔ initialized = true)
    ∧ (isResourceExhausted (embedded_module initialized appendOk table name init).error = true
      ↔ (initialized = false ∧ appendOk = false))
    ∧ (initialized = false → appendOk = true →
        embedded_module initialized appendOk table name init
          = ⟨none, table ++ [(name, init)], false⟩)
    ∧ (embedded_module initialized appendOk table name init).initialized = initialized := by
  cases initialized <;> cases appendOk <;>
    simp [embedded_module, isIllegalState, isResourceExhausted]

/-- Closed instance of register_preconditions: before start with a working
append primitive, registration appends and raises nothing. -/
theorem register_preconditions_witness :
    embedded_module false true [] "mod" 7 = ⟨none, [("mod", 7)], false⟩ :=
  (register_preconditions false true [] "mod" 7).2.2.1 rfl rfl

/-! ## scoped_interpreter (embed.h lines 270-291) -/

/-- The observable interpreter world: whether the runtime is running (what
the session-state query Py_IsInitialized reports) and how many times
finalize_interpreter has been invoked. -/
structure World where
  running : Bool
  finalizeCount : Nat
  deriving DecidableEq, Repr

/-- The scoped_interpreter guard: its only state is the is_valid ownership
flag, which the default member initializer sets to true. -/
structure scoped_interpreter where
  is_valid : Bool
  deriving DecidableEq, Repr

/-- Effect of finalize_interpreter on the world: the runtime stops and the
finalize counter advances. -/
def finalize_world (w : World) : World := ⟨false, w.finalizeCount + 1⟩

/-- The scoped_interpreter constructor (embed.h lines 272-277): it forwards
to initialize_interpreter, which fails when already running (no guard is
produced) and otherwise starts the runtime; the fresh guard's is_valid flag
is true by its default member initializer. -/
def scoped_ctor (w : World) : Option scoped_interpreter × World :=
  if w.running then (none, w)
  else (some ⟨true⟩, ⟨true, w.finalizeCount⟩)

/-- The scoped_interpreter move constructor (embed.h line 280): its body
only clears the source's is_valid flag; the new guard's is_valid flag comes
from the default member initializer and is therefore true, never copied
from the source. Returns (new guard, moved-from source). -/
def scoped_move (other : scoped_interpreter) : scoped_interpreter × scoped_interpreter :=
  (⟨true⟩, ⟨false⟩)

/-- The scoped_interpreter destructor (embed.h lines 284-287): invoke
finalize_interpreter when is_valid holds, otherwise do nothing. -/
def scoped_dtor (g : scoped_interpreter) (w : World) : World :=
  if g.is_valid then finalize_world w else w

/-- C6: from a non-running world, constructing a scoped_interpreter starts
the runtime and yields an owning guard; move-constructing a second guard
from it transfers ownership (new guard owning, source cleared); destroying
the moved-from guard is a no-op leaving the world unchanged; and destroying
the owning guard afterwards stops the runtime, so after both destructors
the session-state query reports not running and finalize ran exactly once. -/
theorem scoped_move_single_stop (w : World) (h : w.running = false) :
    scoped_ctor w = (some ⟨true⟩, ⟨true, w.finalizeCount⟩)
    ∧ scoped_move ⟨true⟩ = (⟨true⟩, ⟨false⟩)
    ∧ scoped_dtor ⟨false⟩ ⟨true, w.finalizeCount⟩ = ⟨true, w.finalizeCount⟩
    ∧ scoped_dtor ⟨true⟩ (scoped_dtor ⟨false⟩ ⟨true, w.finalizeCount⟩)
      = ⟨false, w.finalizeCount + 1⟩ := by
  refine ⟨?_, rfl, rfl, rfl⟩
  simp [scoped_ctor, h]

/-- Closed instance of scoped_move_single_stop: starting from the fresh
world, construct, move, destroy both; the final world is stopped with one
finalize. -/
theorem scoped_move_single_stop_witness :
    (⟨false, 0⟩ : World).running = false
    ∧ scoped_dtor ⟨true⟩ (scoped_dtor ⟨false⟩ ⟨true, 0⟩) = ⟨false, 1⟩ :=
  ⟨rfl, (scoped_move_single_stop ⟨false, 0⟩ rfl).2.2.2⟩

/-- C9: the move constructor always produces a guard whose is_valid flag is
true, whatever the source's flag was, while the source's flag is cleared;
hence move-constructing from an already-moved-from guard yields a guard
that considers itself owning, and that guard's destructor does invoke
finalize_interpreter. -/
theorem scoped_move_always_owns (g : scoped_interpreter) (w : World) :
    (scoped_move g).1.is_valid = true
    ∧ (scoped_move g).2.is_valid = false
    ∧ (scoped_move (scoped_move g).2).1.is_valid = true
    ∧ scoped_dtor (scoped_move (scoped_move g).2).1 w = finalize_world w :=
  ⟨rfl, rfl, rfl, rfl⟩

/-! ## PYBIND11_EMBEDDED_MODULE initializer wrapper (embed.h lines 50-69) -/

/-- A host-level (C++) exception raised by a module initializer body: a
pybind11 error_already_set, some other exception derived from
std.exception (both carry the message their what() reports), or an
exception of a type outside both, which no catch clause of the wrapper
names. -/
inductive HostExc
  | error_already_set (msg : String)
  | std_exception (msg : String)
  | other (tag : Nat)
  deriving DecidableEq, Repr

/-- Outcome of running the generated pybind11_init_wrapper function: the
returned module pointer (none models returning nullptr, the import-failed
value), the ImportError message set via PyErr_SetString if any, and any
exception that escapes the wrapper uncaught. -/
structure WrapperResult where
  ret : Option Nat
  importError : Option String
  uncaught : Option HostExc
  deriving DecidableEq, Repr

/-- The wrapper generated by PYBIND11_EMBEDDED_MODULE (embed.h lines 52-64):
run the body; on success return the module pointer; on a pybind11
error_already_set or a std.exception, set an ImportError carrying the
exception's message and return nullptr; an exception of any other type
matches no catch clause and propagates. -/
def pybind11_init_wrapper (body : Except HostExc Nat) : WrapperResult :=
  match body with
  | Except.ok m => ⟨some m, none, none⟩
  | Except.error (HostExc.error_already_set e) => ⟨none, some e, none⟩
  | Except.error (HostExc.std_exception e) => ⟨none, some e, none⟩
  | Except.error (HostExc.other t) => ⟨none, none, some (HostExc.other t)⟩

/-- Whether an exception is named by one of the wrapper's catch clauses. -/
def catchable : HostExc → Bool
  | HostExc.error_already_set _ => true
  | HostExc.std_exception _ => true
  | HostExc.other _ => false

/-- The message the wrapper hands to PyErr_SetString for a caught
exception. -/
def excMsg : HostExc → String
  | HostExc.error_already_set m => m
  | HostExc.std_exception m => m
  | HostExc.other _ => ""

/-- C7 counterexample: a body raising an exception of a type outside both
catch clauses (neither error_already_set nor derived from std.exception)
escapes the wrapper uncaught, with no ImportError set and no failure value
returned — so not every host-level exception is converted. -/
theorem wrapper_uncaught_counterexample :
    pybind11_init_wrapper (Except.error (HostExc.other 0))
      = ⟨none, none, some (HostExc.other 0)⟩ := rfl

/-- C7 (amended): for every module initializer body whose raised exception
is one the wrapper's catch clauses name — a pybind11 error_already_set or
an exception derived from std.exception — the wrapper catches it, sets an
ImportError carrying the exception's message, and returns the failure
value; nothing propagates across the embedding boundary. -/
theorem wrapper_converts_catchable (body : Except HostExc Nat) (e : HostExc)
    (hb : body = Except.error e) (hc : catchable e = true) :
    pybind11_init_wrapper body = ⟨none, some (excMsg e), none⟩ := by
  subst hb
  cases e <;> simp_all [pybind11_init_wrapper, catchable, excMsg]

/-- Closed instance of wrapper_converts_catchable: a body throwing a
std.exception with message boom yields an ImportError boom and a null
return, with nothing uncaught. -/
theorem wrapper_converts_catchable_witness :
    catchable (HostExc.std_exception "boom") = true
    ∧ pybind11_init_wrapper (Except.error (HostExc.std_exception "boom"))
      = ⟨none, some "boom", none⟩ :=
  ⟨rfl, wrapper_converts_catchable (Except.error (HostExc.std_exception "boom"))
    (HostExc.std_exception "boom") rfl rfl⟩

end Embed
